import Mathlib

/-!
# Verification of the natpmpd mapping daemon core

A shallow embedding of the mapping lifecycle engine, request handling and
announcement scheduler of `src/natpmpd.c`, with theorems checking the
natural-language specification against the code.

Modelling conventions:
* Machine integers are `Nat`; all conversions `htons`/`ntohs`/`htonl`/`ntohl`
  are dropped because they are bijections on the fixed-width values and every
  use in the source either compares two values in the same byte order or
  round-trips a value; port and lifetime fields are therefore modelled by
  their numeric value.
* `struct sockaddr_in` endpoints are modelled as an (address, port) pair of
  naturals; `memcmp` of two such structs is equality of the pair.
* The per-mapping libevent timer (`struct event ev`) is modelled as
  `Option Nat`: `none` when no expiry timer is pending, `some t` when a
  one-shot timer armed for `t` seconds is pending.  `evtimer_del` sets it to
  `none`; `evtimer_add(&m->ev, &tv)` with `tv.tv_sec = lifetime` sets it to
  `some lifetime`.
* `arc4random_uniform(n)` is modelled by a parameter `u : Nat` together with
  the hypothesis `u < n` (the function's contract).
-/

namespace Natpmpd

/-- `IPPORT_HIFIRSTAUTO` from the system `<netinet/in.h>`: first port of the
dynamic/private range used by line 514 of `natpmpd.c`. -/
def IPPORT_HIFIRSTAUTO : Nat := 49152

/-- `IPPORT_HILASTAUTO` from the system `<netinet/in.h>`: last port of the
dynamic/private range used by line 515 of `natpmpd.c`. -/
def IPPORT_HILASTAUTO : Nat := 65535

/-- `IPPROTO_UDP` from the system headers. -/
def IPPROTO_UDP : Nat := 17

/-- `IPPROTO_TCP` from the system headers. -/
def IPPROTO_TCP : Nat := 6

/-- Modelled from the spec: `NATPMPD_MAX_DELAY` is declared in the
repository header `natpmpd.h` (not under `src/`); §4.5 of the spec fixes
the backoff table at 10 delays, and the `timeouts` array at line 183 of
`natpmpd.c` is declared with this dimension and holds exactly 10
initialisers. -/
def NATPMPD_MAX_DELAY : Nat := 10

/-- Modelled from the spec: result code `NATPMP_SUCCESS` declared in the
repository header `natpmpd.h` (not under `src/`); §6 of the spec fixes the
result codes to the values of the NAT-PMP specification: SUCCESS = 0. -/
def NATPMP_SUCCESS : Nat := 0

/-- Modelled from the spec: result code `NATPMP_NETWORK_FAILURE` declared in
the repository header `natpmpd.h` (not under `src/`); per §6 of the spec the
values follow the NAT-PMP specification: NETWORK_FAILURE = 3. -/
def NATPMP_NETWORK_FAILURE : Nat := 3

/-- Modelled from the spec: result code `NATPMP_UNSUPP_OPCODE` declared in
the repository header `natpmpd.h` (not under `src/`); per §6 of the spec the
values follow the NAT-PMP specification: UNSUPP_OPCODE = 5. -/
def NATPMP_UNSUPP_OPCODE : Nat := 5

/-- Modelled from the spec: opcode `NATPMP_OPCODE_ANNOUNCE` declared in the
repository header `natpmpd.h`; §6 of the spec: announce request has
opcode 0. -/
def NATPMP_OPCODE_ANNOUNCE : Nat := 0

/-- Modelled from the spec: opcode `NATPMP_OPCODE_MAP_UDP` declared in the
repository header `natpmpd.h`; the NAT-PMP specification referenced by §6
assigns the UDP map opcode the value 1. -/
def NATPMP_OPCODE_MAP_UDP : Nat := 1

/-- Modelled from the spec: opcode `NATPMP_OPCODE_MAP_TCP` declared in the
repository header `natpmpd.h`; the NAT-PMP specification referenced by §6
assigns the TCP map opcode the value 2. -/
def NATPMP_OPCODE_MAP_TCP : Nat := 2

/-- An IPv4 socket address (`struct sockaddr_in`): address and port, both by
numeric value. -/
@[ext]
structure Endpoint where
  addr : Nat
  port : Nat
  deriving DecidableEq, Repr

/-- One entry of the global `mappings` list (`struct mapping`, lines 46–52):
protocol, external endpoint `dst`, internal endpoint `rdr`, and the pending
expiry timer `ev` (`none` = not pending, `some t` = armed for `t` seconds). -/
structure Mapping where
  proto : Nat
  dst : Endpoint
  rdr : Endpoint
  ev : Option Nat
  deriving DecidableEq, Repr

/-- The condition of the second `if` of the scan loop at lines 479–481:
same protocol and `memcmp` of the whole internal sockaddr equal. -/
def exactMatch (proto : Nat) (rdr : Endpoint) (m : Mapping) : Bool :=
  m.proto == proto && m.rdr == rdr

/-- The condition of the first `if` of the scan loop at lines 476–478:
different protocol, same internal sockaddr ("related" mapping). -/
def relatedMatch (proto : Nat) (rdr : Endpoint) (m : Mapping) : Bool :=
  m.proto != proto && m.rdr == rdr

/-- The scan loop of `natpmp_create_mapping` (lines 475–482): walk the list
remembering the most recent related mapping in `r`, and break on the first
exact match.  Returns (final `r`, exact match if found). -/
def scanMappings (proto : Nat) (rdr : Endpoint) :
    List Mapping → Option Mapping → Option Mapping × Option Mapping
  | [], r => (r, none)
  | m :: rest, r =>
      let r' := if relatedMatch proto rdr m then some m else r
      if exactMatch proto rdr m then (r', some m)
      else scanMappings proto rdr rest r'

/-- The timer refresh at lines 496–498 applied to the store: the first exact
match (the node the scan loop stopped on) gets its timer deleted and re-armed
for `lifetime` seconds; every other node is untouched. -/
def refreshFirst (proto : Nat) (rdr : Endpoint) (lifetime : Nat) :
    List Mapping → List Mapping
  | [] => []
  | m :: rest =>
      if exactMatch proto rdr m then { m with ev := some lifetime } :: rest
      else m :: refreshFirst proto rdr lifetime rest

/-- The random external port of lines 514–515:
`IPPORT_HIFIRSTAUTO + arc4random_uniform(IPPORT_HILASTAUTO - IPPORT_HIFIRSTAUTO)`
with the draw `u` passed in (`u < IPPORT_HILASTAUTO - IPPORT_HIFIRSTAUTO` by
the contract of `arc4random_uniform`); the `htons` is dropped as the value is
stored and compared consistently in network order. -/
def freshExternalPort (u : Nat) : Nat := IPPORT_HIFIRSTAUTO + u

/-- `natpmp_create_mapping` (lines 459–525).  Input: protocol, internal
endpoint `rdr`, requested external endpoint `dst`, lifetime in seconds, the
random draw `u`, and the current `mappings` list.  Output: the C return value
(1 = created, 0 = refreshed), the resolved external endpoint (the C function
writes the resolved port back through `dst`), and the new `mappings` list
(`init_mapping` inserts at the head, line 253). -/
def natpmp_create_mapping (proto : Nat) (rdr dst : Endpoint)
    (lifetime u : Nat) (store : List Mapping) :
    Nat × Endpoint × List Mapping :=
  match scanMappings proto rdr store none with
  | (_, some m) =>
      -- lines 484–501: exact match: force the requested external port to the
      -- stored one when the stored external sockaddr differs, refresh the
      -- timer, report "not created".
      let dst' := if m.dst ≠ dst then { dst with port := m.dst.port } else dst
      (0, dst', refreshFirst proto rdr lifetime store)
  | (r, none) =>
      -- lines 503–524: no exact match: reuse the related mapping's external
      -- port if one was seen, otherwise draw a fresh one; insert at the head
      -- with the timer armed for `lifetime` seconds.
      let dst' :=
        match r with
        | some rm => { dst with port := rm.dst.port }
        | none => { dst with port := freshExternalPort u }
      (1, dst', { proto := proto, dst := dst', rdr := rdr,
                  ev := some lifetime } :: store)

/-- The per-entry condition of `natpmp_remove_mapping` (lines 439–442): same
protocol, same internal address, and either a wildcard request
(`rdr.port = 0`) or the same internal port. -/
def removeMatch (proto : Nat) (rdr : Endpoint) (m : Mapping) : Bool :=
  m.proto == proto && m.rdr.addr == rdr.addr
    && (rdr.port == 0 || m.rdr.port == rdr.port)

/-- `natpmp_remove_mapping` (lines 429–457).  Every matching entry has its
pending timer deleted (lines 445–446) and is unlinked and freed
(lines 449–450).  Output: the count of removed entries (the C return value),
the surviving list, and the removed entries after their timer deletion. -/
def natpmp_remove_mapping (proto : Nat) (rdr : Endpoint) :
    List Mapping → Nat × List Mapping × List Mapping
  | [] => (0, [], [])
  | m :: rest =>
      let res := natpmp_remove_mapping proto rdr rest
      if removeMatch proto rdr m then
        (res.1 + 1, res.2.1, { m with ev := none } :: res.2.2)
      else
        (res.1, m :: res.2.1, res.2.2)

/-- `expire_mapping` (lines 258–276): the timer fire unlinks and frees its
mapping and always calls `rebuild_rules` (the `Bool` component, always
`true`). -/
def expire_mapping (m : Mapping) (store : List Mapping) :
    List Mapping × Bool :=
  (store.erase m, true)

/-- The three fields of the mapping part of a NAT-PMP response
(`response->data.mapping`): `port[0]`, `port[1]`, `lifetime`. -/
structure MappingResponse where
  port0 : Nat
  port1 : Nat
  lifetime : Nat
  deriving DecidableEq, Repr

/-- The outcome of `natpmp_mapping`: the response fields it fills in, the
resulting `mappings` list, the mutation count, and whether `rebuild_rules`
was invoked (line 591: `if (count)`). -/
structure MappingResult where
  response : MappingResponse
  store : List Mapping
  count : Nat
  rebuild : Bool
  deriving DecidableEq, Repr

/-- `natpmp_mapping` (lines 527–596): interpret a mapping request according to
the table at lines 544–556 (`rdr.port` and `lifetime` are the requested
internal port and lifetime by value; zero tests on network-order fields agree
with zero tests on the values). -/
def natpmp_mapping (proto : Nat) (rdr dst : Endpoint) (lifetime u : Nat)
    (store : List Mapping) : MappingResult :=
  if rdr.port > 0 then
    if lifetime > 0 then
      -- lines 559–566: create or refresh
      let c := natpmp_create_mapping proto rdr dst lifetime u store
      { response := { port0 := rdr.port, port1 := c.2.1.port,
                      lifetime := lifetime },
        store := c.2.2, count := c.1, rebuild := c.1 != 0 }
    else
      -- lines 567–579: delete the single mapping
      let r := natpmp_remove_mapping proto rdr store
      { response := { port0 := rdr.port, port1 := 0, lifetime := 0 },
        store := r.2.1, count := r.1, rebuild := r.1 != 0 }
  else
    -- lines 580–589: delete all mappings for this protocol and address
    let r := natpmp_remove_mapping proto rdr store
    { response := { port0 := 0, port1 := 0, lifetime := 0 },
      store := r.2.1, count := r.1, rebuild := r.1 != 0 }

/-- Two mappings collide when they agree on the (protocol, internal endpoint)
key — the pair the store invariant of §3 is keyed on. -/
def keyMatch (a b : Mapping) : Bool :=
  a.proto == b.proto && a.rdr == b.rdr

/-- The store invariant of §3: at most one mapping per (protocol, internal
endpoint) pair. -/
def uniqStore : List Mapping → Bool
  | [] => true
  | m :: rest => rest.all (fun x => !keyMatch m x) && uniqStore rest

/-- The membership of the store as seen by `rebuild_rules` (lines 285–287):
per mapping its protocol, external endpoint and internal endpoint; the timer
state is invisible to the rule set. -/
def membership (l : List Mapping) : List (Nat × Endpoint × Endpoint) :=
  l.map (fun m => (m.proto, m.dst, m.rdr))

/-- A mutation of the global `mappings` list reachable from the event loop:
a create-or-refresh call, a remove call, or an expiry-timer fire. -/
inductive StoreOp where
  | create (proto : Nat) (rdr dst : Endpoint) (lifetime u : Nat)
  | remove (proto : Nat) (rdr : Endpoint)
  | expire (m : Mapping)

/-- Apply one store mutation, keeping only the resulting `mappings` list. -/
def applyOp (s : List Mapping) : StoreOp → List Mapping
  | .create proto rdr dst lifetime u =>
      (natpmp_create_mapping proto rdr dst lifetime u s).2.2
  | .remove proto rdr => (natpmp_remove_mapping proto rdr s).2.1
  | .expire m => (expire_mapping m s).1

/-- Apply a sequence of store mutations in order. -/
def applyOps (s : List Mapping) (ops : List StoreOp) : List Mapping :=
  ops.foldl applyOp s

/-- The byte pair written for the `u_int16_t` result field, in the network
byte order the wire format of §6 prescribes for all multi-byte fields. -/
def resultBytes (code : Nat) : Nat × Nat := (code / 256, code % 256)

/-- The unsupported-opcode arm of `natpmp_handler` (lines 680–691) at the
byte level: `memcpy(response, request, len)` echoes the request, the
`result` field (offsets 2–3) is overwritten with `NATPMP_UNSUPP_OPCODE`, and
line 688 overwrites the opcode byte (offset 1) with `opcode | 0x80`; the
datagram sent back is the first `len = request.length` bytes, so a result
byte beyond the request length never reaches the wire (`List.set` out of
range is a no-op, matching that truncation). -/
def natpmp_unsupported_response (request : List Nat) : List Nat :=
  (((request.set 2 (resultBytes NATPMP_UNSUPP_OPCODE).1).set 3
      (resultBytes NATPMP_UNSUPP_OPCODE).2).set 1
    ((request.getD 1 0) ||| 0x80))

/-- The response the spec sentence describes, built from its words: the
entire request echoed verbatim except the `result` field. -/
def echoExceptResult (request : List Nat) : List Nat :=
  (request.set 2 (resultBytes NATPMP_UNSUPP_OPCODE).1).set 3
    (resultBytes NATPMP_UNSUPP_OPCODE).2

/-- The fields of a NAT-PMP mapping request (lines 59–66), by value. -/
structure NatpmpRequest where
  version : Nat
  opcode : Nat
  port0 : Nat
  port1 : Nat
  lifetime : Nat
  deriving DecidableEq, Repr

/-- The fields of a 16-byte NAT-PMP mapping response (lines 68–83). -/
structure HandlerResponse where
  version : Nat
  opcode : Nat
  result : Nat
  sssoe : Nat
  port0 : Nat
  port1 : Nat
  lifetime : Nat
  deriving DecidableEq, Repr

/-- The mapping-opcode arm of `natpmp_handler` (lines 633–679) for a
version-0 request whose opcode is `NATPMP_OPCODE_MAP_UDP` or
`NATPMP_OPCODE_MAP_TCP`.  `extAddr` is the IPv4 value held in the last four
bytes of `env->sc_address` (0 when the external address is still the
v4-mapped unspecified address, the `IN6_IS_ADDR_V4MAPPED_ANY` test of
line 634).  `clientAddr` is the requesting socket's source address, `s` the
current SSSOE, `len` the datagram length and `u` the random draw.  `none`
models dropping the request without a response (length mismatch at
lines 659–663). -/
def natpmp_handler_mapping (extAddr clientAddr s : Nat) (len : Nat)
    (req : NatpmpRequest) (u : Nat) (store : List Mapping) :
    Option (HandlerResponse × List Mapping × Bool) :=
  if req.opcode = NATPMP_OPCODE_MAP_UDP ∨ req.opcode = NATPMP_OPCODE_MAP_TCP
  then
    let proto :=
      if req.opcode = NATPMP_OPCODE_MAP_UDP then IPPROTO_UDP else IPPROTO_TCP
    if len = 12 then
      -- lines 633–637: result pre-set from the external-address test
      let result :=
        if extAddr = 0 then NATPMP_NETWORK_FAILURE else NATPMP_SUCCESS
      -- lines 665–672: rdr from the client source address and port[0];
      -- dst from the cached external address and port[1]
      let rdr : Endpoint := { addr := clientAddr, port := req.port0 }
      let dst : Endpoint := { addr := extAddr, port := req.port1 }
      let r := natpmp_mapping proto rdr dst req.lifetime u store
      some ({ version := 0, opcode := req.opcode ||| 0x80, result := result,
              sssoe := s, port0 := r.response.port0,
              port1 := r.response.port1,
              lifetime := r.response.lifetime },
            r.store, r.rebuild)
    else none
  else none

/-- One `timeval` entry of the `timeouts` table: seconds and microseconds. -/
def timeouts : List (Nat × Nat) :=
  [(0, 0), (0, 250000), (0, 500000), (1, 0), (2, 0),
   (4, 0), (8, 0), (16, 0), (32, 0), (64, 0)]

/-- The announcement scheduler's state: `env->sc_delay` and the pending
`sc_announce_ev` one-shot timer with the delay it was armed with (`none`
when no announcement timer is pending). -/
structure AnnounceState where
  delay : Nat
  armed : Option (Nat × Nat)
  deriving DecidableEq, Repr

/-- The scheduler trigger of `check_interface` (lines 758–759) after an
address change to a specified address: `sc_delay = 0` and the timer armed
with `timeouts[0]`. -/
def announce_trigger : AnnounceState :=
  { delay := 0, armed := timeouts.get? 0 }

/-- `announce_address` (lines 312–347) as a step of the scheduler state: if
no timer is pending nothing fires; otherwise the pending timer fires, one
multicast announcement round is sent (over every bound IPv4 listening
endpoint), `sc_delay` is incremented (line 342), and if still below
`NATPMPD_MAX_DELAY` the timer is re-armed with `timeouts[sc_delay]`
(lines 345–346).  Returns the delay the fired timer had been armed with and
the next state. -/
def announce_fire (st : AnnounceState) :
    Option ((Nat × Nat) × AnnounceState) :=
  match st.armed with
  | none => none
  | some d =>
      let d' := st.delay + 1
      some (d, { delay := d',
                 armed := if d' < NATPMPD_MAX_DELAY then timeouts.get? d'
                          else none })

/-- Run the scheduler for at most `fuel` timer fires, collecting the delay of
each announcement sent, and the final state. -/
def announce_run : Nat → AnnounceState → List (Nat × Nat) × AnnounceState
  | 0, st => ([], st)
  | fuel + 1, st =>
      match announce_fire st with
      | none => ([], st)
      | some (d, st') =>
          let rest := announce_run fuel st'
          (d :: rest.1, rest.2)

/-! ## Characterisation of the scan loop -/

/-- The exact-match component of the scan loop is the first exact match of
the list, independently of the related accumulator. -/
theorem scan_exact_eq_find (proto : Nat) (rdr : Endpoint) :
    ∀ (l : List Mapping) (r : Option Mapping),
      (scanMappings proto rdr l r).2 = l.find? (exactMatch proto rdr)
  | [], r => rfl
  | m :: rest, r => by
      simp only [scanMappings, List.find?]
      cases h : exactMatch proto rdr m with
      | true => simp
      | false => simpa using scan_exact_eq_find proto rdr rest _

/-- When no entry of the list is a related match, the related accumulator is
returned unchanged. -/
theorem scan_rel_of_no_rel (proto : Nat) (rdr : Endpoint) :
    ∀ (l : List Mapping) (r : Option Mapping),
      (∀ m ∈ l, relatedMatch proto rdr m = false) →
      (scanMappings proto rdr l r).1 = r
  | [], r, _ => rfl
  | m :: rest, r, h => by
      have hm : relatedMatch proto rdr m = false := h m (by simp)
      simp only [scanMappings, hm, if_false]
      cases he : exactMatch proto rdr m with
      | true => simp
      | false =>
          simpa using scan_rel_of_no_rel proto rdr rest r
            (fun x hx => h x (by simp [hx]))

/-- When no entry is an exact match, every related entry of the list equals
`rm`, and `rm` is reachable (already accumulated or a related member), the
scan returns `rm` as the related mapping. -/
theorem scan_rel_of_unique (proto : Nat) (rdr : Endpoint) (rm : Mapping) :
    ∀ (l : List Mapping) (r : Option Mapping),
      (∀ m ∈ l, exactMatch proto rdr m = false) →
      (∀ m ∈ l, relatedMatch proto rdr m = true → m = rm) →
      (r = some rm ∨ (rm ∈ l ∧ relatedMatch proto rdr rm = true)) →
      (scanMappings proto rdr l r).1 = some rm
  | [], r, _, _, hr => by
      rcases hr with hr | ⟨h, _⟩
      · simpa [scanMappings] using hr
      · simp at h
  | m :: rest, r, hex, hall, hr => by
      have hexm : exactMatch proto rdr m = false := hex m (by simp)
      simp only [scanMappings, hexm, Bool.false_eq_true, if_false]
      apply scan_rel_of_unique proto rdr rm rest _
        (fun x hx => hex x (by simp [hx]))
        (fun x hx => hall x (by simp [hx]))
      cases hrel : relatedMatch proto rdr m with
      | true =>
          left
          simp only [if_true]
          exact congrArg some (hall m (by simp) hrel)
      | false =>
          rcases hr with hr | ⟨hmem, hrm⟩
          · left; simpa using hr
          · rcases List.mem_cons.mp hmem with h | h
            · rw [h] at hrm
              exact absurd hrm (by simp [hrel])
            · right; exact ⟨h, hrm⟩

/-! ## Characterisation of the timer refresh -/

/-- Refreshing the first exact match keeps the length of the store. -/
theorem refreshFirst_length (proto : Nat) (rdr : Endpoint) (lt : Nat) :
    ∀ l : List Mapping, (refreshFirst proto rdr lt l).length = l.length
  | [] => rfl
  | m :: rest => by
      simp only [refreshFirst]
      cases exactMatch proto rdr m <;>
        simp [refreshFirst_length proto rdr lt rest]

/-- Refreshing a timer does not change the (protocol, external, internal)
membership the rule set is built from. -/
theorem membership_refreshFirst (proto : Nat) (rdr : Endpoint) (lt : Nat) :
    ∀ l : List Mapping,
      membership (refreshFirst proto rdr lt l) = membership l
  | [] => rfl
  | m :: rest => by
      have ih := membership_refreshFirst proto rdr lt rest
      simp only [membership] at ih
      simp only [refreshFirst]
      cases exactMatch proto rdr m <;> simp [membership, ih]

/-- After the refresh, the first exact match is the old entry with its timer
re-armed for the new lifetime. -/
theorem find?_refreshFirst (proto : Nat) (rdr : Endpoint) (lt : Nat) :
    ∀ (l : List Mapping) (m : Mapping),
      l.find? (exactMatch proto rdr) = some m →
      (refreshFirst proto rdr lt l).find? (exactMatch proto rdr) =
        some { m with ev := some lt }
  | [], m, h => by simp at h
  | x :: rest, m, h => by
      cases hx : exactMatch proto rdr x with
      | true =>
          rw [List.find?_cons_of_pos _ hx, Option.some.injEq] at h
          subst h
          have hx' : exactMatch proto rdr { x with ev := some lt } = true := by
            simpa [exactMatch] using hx
          simp only [refreshFirst, hx, if_true]
          exact List.find?_cons_of_pos _ hx'
      | false =>
          rw [List.find?_cons_of_neg _ (by simp [hx])] at h
          have ih := find?_refreshFirst proto rdr lt rest m h
          have hneg : ¬ exactMatch proto rdr x = true := by simp [hx]
          simp only [refreshFirst, hx, Bool.false_eq_true, if_false]
          rw [List.find?_cons_of_neg _ hneg]
          exact ih

/-! ## The two arms of `natpmp_create_mapping` -/

/-- When an exact match is present, `natpmp_create_mapping` takes the
refresh arm. -/
theorem natpmp_create_mapping_of_exact (proto : Nat) (rdr dst : Endpoint)
    (lifetime u : Nat) (store : List Mapping) (m : Mapping)
    (hm : store.find? (exactMatch proto rdr) = some m) :
    natpmp_create_mapping proto rdr dst lifetime u store =
      (0, if m.dst ≠ dst then { dst with port := m.dst.port } else dst,
        refreshFirst proto rdr lifetime store) := by
  have h2 := scan_exact_eq_find proto rdr store none
  rw [hm] at h2
  unfold natpmp_create_mapping
  rcases hs : scanMappings proto rdr store none with ⟨r, ex⟩
  rw [hs] at h2
  simp only at h2
  subst h2
  simp

/-- When no exact match is present, `natpmp_create_mapping` takes the insert
arm, resolving the external port from the scan's related mapping or the
random draw. -/
theorem natpmp_create_mapping_of_fresh (proto : Nat) (rdr dst : Endpoint)
    (lifetime u : Nat) (store : List Mapping)
    (hm : store.find? (exactMatch proto rdr) = none) :
    natpmp_create_mapping proto rdr dst lifetime u store =
      (1,
        match (scanMappings proto rdr store none).1 with
        | some rm => { dst with port := rm.dst.port }
        | none => { dst with port := freshExternalPort u },
        { proto := proto,
          dst := match (scanMappings proto rdr store none).1 with
            | some rm => { dst with port := rm.dst.port }
            | none => { dst with port := freshExternalPort u },
          rdr := rdr, ev := some lifetime } :: store) := by
  have h2 := scan_exact_eq_find proto rdr store none
  rw [hm] at h2
  unfold natpmp_create_mapping
  rcases hs : scanMappings proto rdr store none with ⟨r, ex⟩
  rw [hs] at h2
  simp only at h2
  subst h2
  simp

/-! ## Claim theorems: the mapping store -/

/-- C1: when a mapping with the same (protocol, internal endpoint) already
exists in the store, `natpmp_create_mapping` returns the stored external
port (overriding any different requested external port), leaves the store
size and (protocol, external, internal) membership unchanged (no new
mapping), re-arms the existing mapping's expiry timer with the new lifetime,
and reports "not created" by returning 0. -/
theorem create_refresh_existing_spec (proto : Nat) (rdr dst : Endpoint)
    (lifetime u : Nat) (store : List Mapping) (m : Mapping)
    (hm : store.find? (exactMatch proto rdr) = some m) :
    (natpmp_create_mapping proto rdr dst lifetime u store).1 = 0 ∧
    (natpmp_create_mapping proto rdr dst lifetime u store).2.1.port =
      m.dst.port ∧
    (natpmp_create_mapping proto rdr dst lifetime u store).2.2.length =
      store.length ∧
    membership (natpmp_create_mapping proto rdr dst lifetime u store).2.2 =
      membership store ∧
    (natpmp_create_mapping proto rdr dst lifetime u
        store).2.2.find? (exactMatch proto rdr) =
      some { m with ev := some lifetime } := by
  rw [natpmp_create_mapping_of_exact proto rdr dst lifetime u store m hm]
  refine ⟨rfl, ?_, ?_, ?_, ?_⟩
  · by_cases hd : m.dst = dst
    · simp [hd]
    · simp [hd]
  · exact refreshFirst_length proto rdr lifetime store
  · exact membership_refreshFirst proto rdr lifetime store
  · exact find?_refreshFirst proto rdr lifetime store m hm

/-- Witness for C1 at a concrete store holding one UDP mapping. -/
theorem create_refresh_existing_spec_witness :
    (natpmp_create_mapping 17 ⟨10, 1234⟩ ⟨7, 2000⟩ 50 0
        [⟨17, ⟨5, 60000⟩, ⟨10, 1234⟩, some 100⟩]).1 = 0 ∧
    (natpmp_create_mapping 17 ⟨10, 1234⟩ ⟨7, 2000⟩ 50 0
        [⟨17, ⟨5, 60000⟩, ⟨10, 1234⟩, some 100⟩]).2.1.port = 60000 ∧
    (natpmp_create_mapping 17 ⟨10, 1234⟩ ⟨7, 2000⟩ 50 0
        [⟨17, ⟨5, 60000⟩, ⟨10, 1234⟩, some 100⟩]).2.2.length =
      [(⟨17, ⟨5, 60000⟩, ⟨10, 1234⟩, some 100⟩ : Mapping)].length ∧
    membership (natpmp_create_mapping 17 ⟨10, 1234⟩ ⟨7, 2000⟩ 50 0
        [⟨17, ⟨5, 60000⟩, ⟨10, 1234⟩, some 100⟩]).2.2 =
      membership [⟨17, ⟨5, 60000⟩, ⟨10, 1234⟩, some 100⟩] ∧
    (natpmp_create_mapping 17 ⟨10, 1234⟩ ⟨7, 2000⟩ 50 0
        [⟨17, ⟨5, 60000⟩, ⟨10, 1234⟩,
          some 100⟩]).2.2.find? (exactMatch 17 ⟨10, 1234⟩) =
      some ⟨17, ⟨5, 60000⟩, ⟨10, 1234⟩, some 50⟩ :=
  create_refresh_existing_spec 17 ⟨10, 1234⟩ ⟨7, 2000⟩ 50 0
    [⟨17, ⟨5, 60000⟩, ⟨10, 1234⟩, some 100⟩]
    ⟨17, ⟨5, 60000⟩, ⟨10, 1234⟩, some 100⟩ (by decide)

/-- C2 counterexample: the claim says the fresh external port is drawn from
49152–65535 inclusive, but line 515 draws
`arc4random_uniform(IPPORT_HILASTAUTO - IPPORT_HIFIRSTAUTO)`, whose image
never reaches 65535: the port 65535 lies in the claimed range yet is not an
attainable value of `freshExternalPort`. -/
theorem fresh_port_range_counterexample :
    65535 ∈ Finset.Icc IPPORT_HIFIRSTAUTO 65535 ∧
    65535 ∉ (Finset.range (IPPORT_HILASTAUTO - IPPORT_HIFIRSTAUTO)).image
        freshExternalPort := by
  constructor
  · simp [IPPORT_HIFIRSTAUTO]
  · simp only [Finset.mem_image, Finset.mem_range, freshExternalPort,
      IPPORT_HIFIRSTAUTO, IPPORT_HILASTAUTO, not_exists]
    intro u hu
    omega

/-- C2 (amended): when neither an exact match nor a related mapping exists,
the assigned external port is `IPPORT_HIFIRSTAUTO + u` for the uniform draw
`u < IPPORT_HILASTAUTO - IPPORT_HIFIRSTAUTO`, irrespective of the requested
external port (`dst` is arbitrary); the attainable ports are exactly
49152–65534 inclusive.  The draw-to-port map is injective, so the uniform
draw induces the uniform distribution on that range. -/
theorem fresh_port_selection_spec (proto : Nat) (rdr dst : Endpoint)
    (lifetime u : Nat) (store : List Mapping)
    (hex : store.find? (exactMatch proto rdr) = none)
    (hrel : ∀ m ∈ store, relatedMatch proto rdr m = false)
    (hu : u < IPPORT_HILASTAUTO - IPPORT_HIFIRSTAUTO) :
    (natpmp_create_mapping proto rdr dst lifetime u store).2.1.port =
      freshExternalPort u ∧
    IPPORT_HIFIRSTAUTO ≤ freshExternalPort u ∧
    freshExternalPort u ≤ 65534 ∧
    (Finset.range (IPPORT_HILASTAUTO - IPPORT_HIFIRSTAUTO)).image
        freshExternalPort = Finset.Icc IPPORT_HIFIRSTAUTO 65534 ∧
    Function.Injective freshExternalPort := by
  simp only [IPPORT_HILASTAUTO, IPPORT_HIFIRSTAUTO] at hu
  refine ⟨?_, ?_, ?_, ?_, ?_⟩
  · have hs := scan_rel_of_no_rel proto rdr store none hrel
    rw [natpmp_create_mapping_of_fresh proto rdr dst lifetime u store hex,
      hs]
  · simp [freshExternalPort, IPPORT_HIFIRSTAUTO]
  · simp only [freshExternalPort, IPPORT_HIFIRSTAUTO]
    omega
  · ext x
    simp only [Finset.mem_image, Finset.mem_range, Finset.mem_Icc,
      freshExternalPort, IPPORT_HIFIRSTAUTO, IPPORT_HILASTAUTO]
    constructor
    · rintro ⟨a, ha, rfl⟩
      omega
    · rintro ⟨h1, h2⟩
      exact ⟨x - 49152, by omega, by omega⟩
  · intro a b h
    simpa [freshExternalPort, IPPORT_HIFIRSTAUTO] using h

/-- Witness for C2 (amended) at an empty store and the draw 5. -/
theorem fresh_port_selection_spec_witness :
    (natpmp_create_mapping 17 ⟨10, 1234⟩ ⟨7, 2000⟩ 50 5 []).2.1.port =
      freshExternalPort 5 ∧
    IPPORT_HIFIRSTAUTO ≤ freshExternalPort 5 ∧
    freshExternalPort 5 ≤ 65534 ∧
    (Finset.range (IPPORT_HILASTAUTO - IPPORT_HIFIRSTAUTO)).image
        freshExternalPort = Finset.Icc IPPORT_HIFIRSTAUTO 65534 ∧
    Function.Injective freshExternalPort :=
  fresh_port_selection_spec 17 ⟨10, 1234⟩ ⟨7, 2000⟩ 50 5 [] rfl
    (by simp) (by decide)

/-- C3: when no exact match exists but a related mapping `rm` (same internal
endpoint, other protocol) does, the new mapping is created (return 1) and
assigned `rm`'s external port; the new entry is inserted at the head with
that external port. -/
theorem related_port_reuse_spec (proto : Nat) (rdr dst : Endpoint)
    (lifetime u : Nat) (store : List Mapping) (rm : Mapping)
    (hex : store.find? (exactMatch proto rdr) = none)
    (hmem : rm ∈ store) (hrm : relatedMatch proto rdr rm = true)
    (huniq : ∀ m ∈ store, relatedMatch proto rdr m = true → m = rm) :
    (natpmp_create_mapping proto rdr dst lifetime u store).1 = 1 ∧
    (natpmp_create_mapping proto rdr dst lifetime u store).2.1.port =
      rm.dst.port ∧
    (natpmp_create_mapping proto rdr dst lifetime u store).2.2 =
      { proto := proto, dst := { dst with port := rm.dst.port },
        rdr := rdr, ev := some lifetime } :: store := by
  have hexall : ∀ m ∈ store, exactMatch proto rdr m = false := by
    intro x hx
    have := List.find?_eq_none.mp hex x hx
    simpa using this
  have hs := scan_rel_of_unique proto rdr rm store none hexall huniq
    (Or.inr ⟨hmem, hrm⟩)
  rw [natpmp_create_mapping_of_fresh proto rdr dst lifetime u store hex, hs]
  exact ⟨rfl, rfl, rfl⟩

/-- Witness for C3: a TCP create against a store holding only the UDP
mapping of the same internal endpoint reuses its external port 60000. -/
theorem related_port_reuse_spec_witness :
    (natpmp_create_mapping 6 ⟨10, 1234⟩ ⟨7, 2000⟩ 50 0
        [⟨17, ⟨5, 60000⟩, ⟨10, 1234⟩, some 100⟩]).1 = 1 ∧
    (natpmp_create_mapping 6 ⟨10, 1234⟩ ⟨7, 2000⟩ 50 0
        [⟨17, ⟨5, 60000⟩, ⟨10, 1234⟩, some 100⟩]).2.1.port = 60000 ∧
    (natpmp_create_mapping 6 ⟨10, 1234⟩ ⟨7, 2000⟩ 50 0
        [⟨17, ⟨5, 60000⟩, ⟨10, 1234⟩, some 100⟩]).2.2 =
      [⟨6, ⟨7, 60000⟩, ⟨10, 1234⟩, some 50⟩,
       ⟨17, ⟨5, 60000⟩, ⟨10, 1234⟩, some 100⟩] :=
  related_port_reuse_spec 6 ⟨10, 1234⟩ ⟨7, 2000⟩ 50 0
    [⟨17, ⟨5, 60000⟩, ⟨10, 1234⟩, some 100⟩]
    ⟨17, ⟨5, 60000⟩, ⟨10, 1234⟩, some 100⟩ rfl (by simp) (by decide)
    (by decide)

/-! ## Characterisation of `natpmp_remove_mapping` -/

/-- The survivors of a remove call are exactly the non-matching entries. -/
theorem remove_kept (proto : Nat) (rdr : Endpoint) :
    ∀ l : List Mapping,
      (natpmp_remove_mapping proto rdr l).2.1 =
        l.filter (fun m => !removeMatch proto rdr m)
  | [] => rfl
  | m :: rest => by
      cases h : removeMatch proto rdr m <;>
        simp [natpmp_remove_mapping, List.filter_cons, h,
          remove_kept proto rdr rest]

/-- The count returned by a remove call is the number of matching entries. -/
theorem remove_count (proto : Nat) (rdr : Endpoint) :
    ∀ l : List Mapping,
      (natpmp_remove_mapping proto rdr l).1 =
        (l.filter (removeMatch proto rdr)).length
  | [] => rfl
  | m :: rest => by
      cases h : removeMatch proto rdr m <;>
        simp [natpmp_remove_mapping, List.filter_cons, h,
          remove_count proto rdr rest]

/-- Every entry removed by a remove call had its expiry timer deleted before
being freed. -/
theorem remove_removed_timer (proto : Nat) (rdr : Endpoint) :
    ∀ (l : List Mapping) (m : Mapping),
      m ∈ (natpmp_remove_mapping proto rdr l).2.2 → m.ev = none
  | [], m, hm => by simp [natpmp_remove_mapping] at hm
  | x :: rest, m, hm => by
      cases h : removeMatch proto rdr x with
      | true =>
          simp only [natpmp_remove_mapping, h, if_true] at hm
          rcases List.mem_cons.mp hm with h1 | h1
          · rw [h1]
          · exact remove_removed_timer proto rdr rest m h1
      | false =>
          simp only [natpmp_remove_mapping, h, Bool.false_eq_true,
            if_false] at hm
          exact remove_removed_timer proto rdr rest m hm

/-- A full match with a nonzero requested internal port pins down the whole
(protocol, internal endpoint) key. -/
theorem removeMatch_key (proto : Nat) (rdr : Endpoint) (m : Mapping)
    (hp : rdr.port ≠ 0) (h : removeMatch proto rdr m = true) :
    m.proto = proto ∧ m.rdr = rdr := by
  simp only [removeMatch, Bool.and_eq_true, Bool.or_eq_true,
    beq_iff_eq] at h
  obtain ⟨⟨h1, h2⟩, h3⟩ := h
  rcases h3 with h3 | h3
  · exact absurd h3 hp
  · exact ⟨h1, Endpoint.ext h2 h3⟩

/-! ## The store invariant -/

/-- `all` restricted along a filter. -/
theorem all_filter_of_all (p q : Mapping → Bool) (l : List Mapping)
    (h : l.all q = true) : (l.filter p).all q = true := by
  rw [List.all_eq_true] at h ⊢
  exact fun x hx => h x (List.mem_of_mem_filter hx)

/-- `all` restricted along a sublist. -/
theorem all_sublist (q : Mapping → Bool) {l' l : List Mapping}
    (h : List.Sublist l' l) (ha : l.all q = true) : l'.all q = true := by
  rw [List.all_eq_true] at ha ⊢
  exact fun x hx => ha x (h.subset hx)

/-- Filtering preserves the store invariant. -/
theorem uniq_filter (p : Mapping → Bool) :
    ∀ l : List Mapping, uniqStore l = true → uniqStore (l.filter p) = true
  | [], h => h
  | m :: rest, h => by
      simp only [uniqStore, Bool.and_eq_true] at h
      cases hp : p m with
      | true =>
          simp only [List.filter_cons, hp, if_true, uniqStore,
            Bool.and_eq_true]
          exact ⟨all_filter_of_all p _ rest h.1, uniq_filter p rest h.2⟩
      | false =>
          simp only [List.filter_cons, hp, Bool.false_eq_true, if_false]
          exact uniq_filter p rest h.2

/-- Sublists preserve the store invariant. -/
theorem uniq_sublist : ∀ {l' l : List Mapping}, List.Sublist l' l →
    uniqStore l = true → uniqStore l' = true := by
  intro l' l h
  induction h with
  | slnil => exact fun h => h
  | cons a _ ih =>
      intro hu
      simp only [uniqStore, Bool.and_eq_true] at hu
      exact ih hu.2
  | cons₂ a hsub ih =>
      intro hu
      simp only [uniqStore, Bool.and_eq_true] at hu ⊢
      exact ⟨all_sublist _ hsub hu.1, ih hu.2⟩

/-- Re-arming a timer neither creates nor destroys key collisions. -/
theorem all_keyMatch_refreshFirst (proto : Nat) (rdr : Endpoint) (lt : Nat)
    (a : Mapping) :
    ∀ l : List Mapping,
      ((refreshFirst proto rdr lt l).all fun x => !keyMatch a x) =
        (l.all fun x => !keyMatch a x)
  | [] => rfl
  | m :: rest => by
      have ih := all_keyMatch_refreshFirst proto rdr lt a rest
      cases h : exactMatch proto rdr m with
      | true =>
          simp only [refreshFirst, h, if_true, List.all_cons]
          simp [keyMatch]
      | false =>
          simp only [refreshFirst, h, Bool.false_eq_true, if_false,
            List.all_cons]
          rw [ih]

/-- The timer refresh preserves the store invariant. -/
theorem uniq_refreshFirst (proto : Nat) (rdr : Endpoint) (lt : Nat) :
    ∀ l : List Mapping,
      uniqStore (refreshFirst proto rdr lt l) = uniqStore l
  | [] => rfl
  | m :: rest => by
      cases h : exactMatch proto rdr m with
      | true => simp [refreshFirst, h, uniqStore, keyMatch]
      | false =>
          simp only [refreshFirst, h, Bool.false_eq_true, if_false,
            uniqStore]
          rw [all_keyMatch_refreshFirst proto rdr lt m rest,
            uniq_refreshFirst proto rdr lt rest]

/-- Inserting a mapping whose key is absent preserves the store
invariant. -/
theorem uniq_insert_fresh (proto : Nat) (rdr d : Endpoint) (lt : Nat)
    (store : List Mapping)
    (hex : ∀ m ∈ store, exactMatch proto rdr m = false)
    (h : uniqStore store = true) :
    uniqStore ({ proto := proto, dst := d, rdr := rdr,
                 ev := some lt } :: store) = true := by
  simp only [uniqStore, Bool.and_eq_true]
  refine ⟨?_, h⟩
  rw [List.all_eq_true]
  intro x hx
  have hx2 : ¬ (x.proto = proto ∧ x.rdr = rdr) := by
    intro hc
    have := hex x hx
    simp [exactMatch, hc.1, hc.2] at this
  cases hk : keyMatch { proto := proto, dst := d, rdr := rdr,
                        ev := some lt } x with
  | false => simp
  | true =>
      exfalso
      simp only [keyMatch, Bool.and_eq_true, beq_iff_eq] at hk
      exact hx2 ⟨hk.1.symm, hk.2.symm⟩

/-- With a nonzero internal port, the invariant bounds the number of
matching entries by one. -/
theorem count_le_one_of_uniq (proto : Nat) (rdr : Endpoint)
    (hp : rdr.port ≠ 0) :
    ∀ l : List Mapping, uniqStore l = true →
      (l.filter (removeMatch proto rdr)).length ≤ 1
  | [], _ => by simp
  | m :: rest, h => by
      simp only [uniqStore, Bool.and_eq_true] at h
      cases hm : removeMatch proto rdr m with
      | false =>
          simpa [List.filter_cons, hm] using
            count_le_one_of_uniq proto rdr hp rest h.2
      | true =>
          suffices hnil : rest.filter (removeMatch proto rdr) = [] by
            simp [List.filter_cons, hm, hnil]
          rw [List.filter_eq_nil_iff]
          intro x hx hpx
          obtain ⟨hm1, hm2⟩ := removeMatch_key proto rdr m hp hm
          obtain ⟨hx1, hx2⟩ := removeMatch_key proto rdr x hp hpx
          have hall := h.1
          rw [List.all_eq_true] at hall
          have := hall x hx
          simp [keyMatch, hm1, hm2, hx1, hx2] at this

/-- C5: `natpmp_remove_mapping` keeps exactly the non-matching entries and
returns the number removed; each removed entry's pending timer was deleted;
with internal port 0 the match is the protocol + internal address wildcard;
with a nonzero port the invariant guarantees at most one entry is removed;
and when nothing matches, zero entries are removed and the store is
untouched (no error). -/
theorem remove_mapping_spec (proto : Nat) (rdr : Endpoint)
    (store : List Mapping) :
    (natpmp_remove_mapping proto rdr store).2.1 =
      store.filter (fun m => !removeMatch proto rdr m) ∧
    (natpmp_remove_mapping proto rdr store).1 =
      (store.filter (removeMatch proto rdr)).length ∧
    (∀ m ∈ (natpmp_remove_mapping proto rdr store).2.2, m.ev = none) ∧
    (rdr.port = 0 →
      (natpmp_remove_mapping proto rdr store).2.1 =
        store.filter
          (fun m => !(m.proto == proto && m.rdr.addr == rdr.addr))) ∧
    (rdr.port ≠ 0 → uniqStore store = true →
      (natpmp_remove_mapping proto rdr store).1 ≤ 1) ∧
    ((∀ m ∈ store, removeMatch proto rdr m = false) →
      (natpmp_remove_mapping proto rdr store).1 = 0 ∧
      (natpmp_remove_mapping proto rdr store).2.1 = store) := by
  refine ⟨remove_kept proto rdr store, remove_count proto rdr store,
    remove_removed_timer proto rdr store, ?_, ?_, ?_⟩
  · intro hp
    rw [remove_kept proto rdr store]
    apply List.filter_congr
    intro m _
    simp [removeMatch, hp]
  · intro hp hu
    rw [remove_count proto rdr store]
    exact count_le_one_of_uniq proto rdr hp store hu
  · intro hnone
    have hnil : store.filter (removeMatch proto rdr) = [] := by
      rw [List.filter_eq_nil_iff]
      intro a ha
      simp [hnone a ha]
    constructor
    · rw [remove_count proto rdr store, hnil]
      rfl
    · rw [remove_kept proto rdr store, List.filter_eq_self]
      intro a ha
      simp [hnone a ha]

/-- Witness for C5: a wildcard removal clearing a two-entry store, and a
targeted removal from a store satisfying the invariant. -/
theorem remove_mapping_spec_witness :
    (natpmp_remove_mapping 17 ⟨10, 0⟩
        [⟨17, ⟨5, 60000⟩, ⟨10, 1234⟩, some 100⟩,
         ⟨17, ⟨9, 50000⟩, ⟨10, 777⟩, some 30⟩]).2.1 =
      ([⟨17, ⟨5, 60000⟩, ⟨10, 1234⟩, some 100⟩,
        ⟨17, ⟨9, 50000⟩, ⟨10, 777⟩, some 30⟩] : List Mapping).filter
        (fun m => !(m.proto == 17 && m.rdr.addr == (10 : Nat))) ∧
    (natpmp_remove_mapping 6 ⟨10, 99⟩
        [⟨17, ⟨5, 60000⟩, ⟨10, 1234⟩, some 100⟩]).1 ≤ 1 := by
  constructor
  · exact (remove_mapping_spec 17 ⟨10, 0⟩
      [⟨17, ⟨5, 60000⟩, ⟨10, 1234⟩, some 100⟩,
       ⟨17, ⟨9, 50000⟩, ⟨10, 777⟩, some 30⟩]).2.2.2.1 rfl
  · exact (remove_mapping_spec 6 ⟨10, 99⟩
      [⟨17, ⟨5, 60000⟩, ⟨10, 1234⟩, some 100⟩]).2.2.2.2.1
      (by decide) (by decide)

/-- C4: the request-interpretation table of `natpmp_mapping`: internal
port 0 removes all mappings for the protocol and client address and answers
ports 0/0, lifetime 0; internal port > 0 with lifetime 0 removes the single
matching mapping and answers port0 = internal port, port1 = 0, lifetime 0;
internal port > 0 with lifetime > 0 runs create-or-refresh and answers
port0 = internal port, port1 = the assigned external port, and the
requested lifetime. -/
theorem mapping_request_table_spec (proto : Nat) (rdr dst : Endpoint)
    (lifetime u : Nat) (store : List Mapping) :
    (rdr.port = 0 →
      (natpmp_mapping proto rdr dst lifetime u store).response =
        { port0 := 0, port1 := 0, lifetime := 0 } ∧
      (natpmp_mapping proto rdr dst lifetime u store).store =
        store.filter
          (fun m => !(m.proto == proto && m.rdr.addr == rdr.addr))) ∧
    (rdr.port > 0 → lifetime = 0 →
      (natpmp_mapping proto rdr dst lifetime u store).response =
        { port0 := rdr.port, port1 := 0, lifetime := 0 } ∧
      (natpmp_mapping proto rdr dst lifetime u store).store =
        store.filter (fun m => !removeMatch proto rdr m)) ∧
    (rdr.port > 0 → lifetime > 0 →
      (natpmp_mapping proto rdr dst lifetime u store).response =
        { port0 := rdr.port,
          port1 :=
            (natpmp_create_mapping proto rdr dst lifetime u store).2.1.port,
          lifetime := lifetime } ∧
      (natpmp_mapping proto rdr dst lifetime u store).store =
        (natpmp_create_mapping proto rdr dst lifetime u store).2.2) := by
  refine ⟨?_, ?_, ?_⟩
  · intro hp
    simp only [natpmp_mapping, hp, gt_iff_lt, lt_irrefl, if_false]
    exact ⟨trivial, (remove_mapping_spec proto rdr store).2.2.2.1 hp⟩
  · intro hp hl
    simp only [natpmp_mapping, hl, gt_iff_lt, if_pos hp, lt_irrefl,
      if_false]
    exact ⟨trivial, remove_kept proto rdr store⟩
  · intro hp hl
    simp only [natpmp_mapping, gt_iff_lt, if_pos hp, if_pos hl]
    exact ⟨trivial, trivial⟩

/-- Witness for C4: the three rows of the table at concrete requests. -/
theorem mapping_request_table_spec_witness :
    ((natpmp_mapping 17 ⟨10, 0⟩ ⟨0, 0⟩ 99 0
        [⟨17, ⟨5, 60000⟩, ⟨10, 1234⟩, some 100⟩]).response =
      { port0 := 0, port1 := 0, lifetime := 0 } ∧
     (natpmp_mapping 17 ⟨10, 0⟩ ⟨0, 0⟩ 99 0
        [⟨17, ⟨5, 60000⟩, ⟨10, 1234⟩, some 100⟩]).store =
      ([⟨17, ⟨5, 60000⟩, ⟨10, 1234⟩, some 100⟩] : List Mapping).filter
        (fun m => !(m.proto == 17 &&
          m.rdr.addr == (⟨10, 0⟩ : Endpoint).addr))) ∧
    ((natpmp_mapping 17 ⟨10, 1234⟩ ⟨0, 0⟩ 0 0
        [⟨17, ⟨5, 60000⟩, ⟨10, 1234⟩, some 100⟩]).response =
      { port0 := 1234, port1 := 0, lifetime := 0 } ∧
     (natpmp_mapping 17 ⟨10, 1234⟩ ⟨0, 0⟩ 0 0
        [⟨17, ⟨5, 60000⟩, ⟨10, 1234⟩, some 100⟩]).store =
      ([⟨17, ⟨5, 60000⟩, ⟨10, 1234⟩, some 100⟩] : List Mapping).filter
        (fun m => !removeMatch 17 ⟨10, 1234⟩ m)) ∧
    ((natpmp_mapping 17 ⟨10, 1234⟩ ⟨0, 0⟩ 7 3 []).response =
      { port0 := 1234,
        port1 := (natpmp_create_mapping 17 ⟨10, 1234⟩ ⟨0, 0⟩ 7 3 []).2.1.port,
        lifetime := 7 } ∧
     (natpmp_mapping 17 ⟨10, 1234⟩ ⟨0, 0⟩ 7 3 []).store =
      (natpmp_create_mapping 17 ⟨10, 1234⟩ ⟨0, 0⟩ 7 3 []).2.2) := by
  refine ⟨?_, ?_, ?_⟩
  · exact (mapping_request_table_spec 17 ⟨10, 0⟩ ⟨0, 0⟩ 99 0
      [⟨17, ⟨5, 60000⟩, ⟨10, 1234⟩, some 100⟩]).1 rfl
  · exact (mapping_request_table_spec 17 ⟨10, 1234⟩ ⟨0, 0⟩ 0 0
      [⟨17, ⟨5, 60000⟩, ⟨10, 1234⟩, some 100⟩]).2.1 (by decide) rfl
  · exact (mapping_request_table_spec 17 ⟨10, 1234⟩ ⟨0, 0⟩ 7 3 []).2.2
      (by decide) (by decide)

/-- One store mutation preserves the invariant. -/
theorem uniq_applyOp (s : List Mapping) (op : StoreOp)
    (h : uniqStore s = true) : uniqStore (applyOp s op) = true := by
  cases op with
  | create proto rdr dst lifetime u =>
      cases hex : s.find? (exactMatch proto rdr) with
      | some m =>
          rw [applyOp,
            natpmp_create_mapping_of_exact proto rdr dst lifetime u s m hex]
          rw [show (0, if m.dst ≠ dst then { dst with port := m.dst.port }
              else dst, refreshFirst proto rdr lifetime s).2.2 =
              refreshFirst proto rdr lifetime s from rfl]
          rw [uniq_refreshFirst proto rdr lifetime s]
          exact h
      | none =>
          rw [applyOp,
            natpmp_create_mapping_of_fresh proto rdr dst lifetime u s hex]
          have hexall : ∀ m ∈ s, exactMatch proto rdr m = false := by
            intro x hx
            simpa using List.find?_eq_none.mp hex x hx
          cases hr : (scanMappings proto rdr s none).1 with
          | some rm =>
              simpa [hr] using
                uniq_insert_fresh proto rdr
                  { dst with port := rm.dst.port } lifetime s hexall h
          | none =>
              simpa [hr] using
                uniq_insert_fresh proto rdr
                  { dst with port := freshExternalPort u } lifetime s
                  hexall h
  | remove proto rdr =>
      rw [applyOp, remove_kept proto rdr s]
      exact uniq_filter _ s h
  | expire m =>
      exact uniq_sublist (List.erase_sublist m s) h

/-- C6: any sequence of create-or-refresh, remove and expire operations
starting from a store satisfying the at-most-one-mapping-per-key invariant
ends in a store satisfying it: refreshes replace, inserts only happen when
the key is absent, and removals only delete. -/
theorem store_invariant_preserved (s : List Mapping) (ops : List StoreOp)
    (h : uniqStore s = true) : uniqStore (applyOps s ops) = true := by
  induction ops generalizing s with
  | nil => exact h
  | cons op rest ih => exact ih (applyOp s op) (uniq_applyOp s op h)

/-- Witness for C6: a concrete operation sequence (create, repeat create,
related create, targeted remove, expiry) from the empty store. -/
theorem store_invariant_preserved_witness :
    uniqStore (applyOps []
      [StoreOp.create 17 ⟨10, 1234⟩ ⟨0, 7⟩ 100 3,
       StoreOp.create 17 ⟨10, 1234⟩ ⟨0, 9⟩ 200 4,
       StoreOp.create 6 ⟨10, 1234⟩ ⟨0, 0⟩ 50 5,
       StoreOp.remove 17 ⟨10, 1234⟩,
       StoreOp.expire ⟨6, ⟨0, 49155⟩, ⟨10, 1234⟩, some 50⟩]) = true :=
  store_invariant_preserved []
    [StoreOp.create 17 ⟨10, 1234⟩ ⟨0, 7⟩ 100 3,
     StoreOp.create 17 ⟨10, 1234⟩ ⟨0, 9⟩ 200 4,
     StoreOp.create 6 ⟨10, 1234⟩ ⟨0, 0⟩ 50 5,
     StoreOp.remove 17 ⟨10, 1234⟩,
     StoreOp.expire ⟨6, ⟨0, 49155⟩, ⟨10, 1234⟩, some 50⟩] rfl

/-- The membership snapshot has one entry per mapping. -/
theorem membership_length (l : List Mapping) :
    (membership l).length = l.length := by simp [membership]

/-- The matching and non-matching entries partition the store. -/
theorem filter_not_length (p : Mapping → Bool) :
    ∀ l : List Mapping,
      (l.filter fun m => !p m).length + (l.filter p).length = l.length
  | [] => rfl
  | m :: rest => by
      have ih := filter_not_length p rest
      cases h : p m <;> simp [List.filter_cons, h] <;> omega

/-- A remove call's count is nonzero exactly when it changed the rule-set
membership of the store. -/
theorem remove_rebuild_iff (proto : Nat) (rdr : Endpoint)
    (store : List Mapping) :
    (((natpmp_remove_mapping proto rdr store).1 != 0) = true ↔
      membership (natpmp_remove_mapping proto rdr store).2.1 ≠
        membership store) := by
  rw [remove_count proto rdr store, remove_kept proto rdr store]
  constructor
  · intro hb he
    have hlen := congrArg List.length he
    rw [membership_length, membership_length] at hlen
    have hsum := filter_not_length (removeMatch proto rdr) store
    have hnz : (store.filter (removeMatch proto rdr)).length ≠ 0 := by
      simpa using hb
    omega
  · intro hne
    by_contra hb
    have hz : (store.filter (removeMatch proto rdr)).length = 0 := by
      simpa using hb
    have hnil := List.length_eq_zero.mp hz
    have hself :
        store.filter (fun m => !removeMatch proto rdr m) = store := by
      rw [List.filter_eq_self]
      intro a ha
      have hfa : removeMatch proto rdr a = false := by
        by_contra hx
        have : a ∈ store.filter (removeMatch proto rdr) :=
          List.mem_filter.mpr ⟨ha, by simpa using hx⟩
        rw [hnil] at this
        simp at this
      simp [hfa]
    exact hne (by rw [hself])

/-- A create-or-refresh call's return value is nonzero exactly when it
changed the rule-set membership of the store. -/
theorem create_rebuild_iff (proto : Nat) (rdr dst : Endpoint)
    (lifetime u : Nat) (store : List Mapping) :
    (((natpmp_create_mapping proto rdr dst lifetime u store).1 != 0) =
        true ↔
      membership (natpmp_create_mapping proto rdr dst lifetime u
          store).2.2 ≠ membership store) := by
  cases hex : store.find? (exactMatch proto rdr) with
  | some me =>
      rw [natpmp_create_mapping_of_exact proto rdr dst lifetime u store me
        hex]
      simp [membership_refreshFirst proto rdr lifetime store]
  | none =>
      rw [natpmp_create_mapping_of_fresh proto rdr dst lifetime u store
        hex]
      have hne : membership
          ({ proto := proto,
             dst := match (scanMappings proto rdr store none).1 with
               | some rm => { dst with port := rm.dst.port }
               | none => { dst with port := freshExternalPort u },
             rdr := rdr, ev := some lifetime } :: store) ≠
          membership store := by
        intro he
        have hlen := congrArg List.length he
        rw [membership_length, membership_length] at hlen
        simp at hlen
      simpa using hne

/-- C7: a mapping request triggers a firewall rule rebuild exactly when it
changed the store's rule-set membership (a pure timer refresh and a
no-match removal do not), and a timer expiry always triggers a rebuild. -/
theorem rebuild_iff_membership_change (proto : Nat) (rdr dst : Endpoint)
    (lifetime u : Nat) (store : List Mapping) (m : Mapping) :
    ((natpmp_mapping proto rdr dst lifetime u store).rebuild = true ↔
      membership (natpmp_mapping proto rdr dst lifetime u store).store ≠
        membership store) ∧
    (expire_mapping m store).2 = true := by
  refine ⟨?_, rfl⟩
  by_cases hp : rdr.port > 0
  · by_cases hl : lifetime > 0
    · simp only [natpmp_mapping, if_pos hp, if_pos hl]
      exact create_rebuild_iff proto rdr dst lifetime u store
    · simp only [natpmp_mapping, if_pos hp, if_neg hl]
      exact remove_rebuild_iff proto rdr store
  · simp only [natpmp_mapping, if_neg hp]
    exact remove_rebuild_iff proto rdr store

/-- C8 counterexample: for the 4-byte version-0 request with opcode 3, the
response of the unsupported-opcode arm is not the request echoed verbatim
with only the result field replaced — line 688 also sets the high bit of
the opcode byte. -/
theorem unsupported_echo_counterexample :
    natpmp_unsupported_response [0, 3, 0, 0] ≠
      echoExceptResult [0, 3, 0, 0] ∧
    (natpmp_unsupported_response [0, 3, 0, 0]).getD 1 0 = 0x83 ∧
    (echoExceptResult [0, 3, 0, 0]).getD 1 0 = 3 := by decide

/-- C8 (amended): for any request of at least 2 bytes handled by the
unsupported-opcode arm, the response has the same length as the request and
echoes it verbatim except that the result field (offsets 2–3, where present
within the request's length) is set to the unsupported-opcode code and the
opcode byte (offset 1) additionally has its high bit set. -/
theorem unsupported_echo_spec (request : List Nat)
    (h2 : 2 ≤ request.length) :
    (natpmp_unsupported_response request).length = request.length ∧
    (∀ i, i ≠ 1 → i ≠ 2 → i ≠ 3 →
      (natpmp_unsupported_response request)[i]? = request[i]?) ∧
    (natpmp_unsupported_response request)[1]? =
      some ((request.getD 1 0) ||| 0x80) ∧
    (4 ≤ request.length →
      (natpmp_unsupported_response request)[2]? =
        some (resultBytes NATPMP_UNSUPP_OPCODE).1 ∧
      (natpmp_unsupported_response request)[3]? =
        some (resultBytes NATPMP_UNSUPP_OPCODE).2) := by
  refine ⟨?_, ?_, ?_, ?_⟩
  · simp [natpmp_unsupported_response]
  · intro i h1 hb2 hb3
    unfold natpmp_unsupported_response
    rw [List.getElem?_set_ne (Ne.symm h1),
      List.getElem?_set_ne (Ne.symm hb3), List.getElem?_set_ne (Ne.symm hb2)]
  · unfold natpmp_unsupported_response
    rw [List.getElem?_set_self (by simp [List.length_set]; omega)]
  · intro h4
    unfold natpmp_unsupported_response
    constructor
    · rw [List.getElem?_set_ne (by omega), List.getElem?_set_ne (by omega),
        List.getElem?_set_self (by omega)]
    · rw [List.getElem?_set_ne (by omega),
        List.getElem?_set_self (by simp [List.length_set]; omega)]

/-- Witness for C8 (amended) at the concrete 6-byte request
`[0, 9, 1, 2, 3, 4]`. -/
theorem unsupported_echo_spec_witness :
    (natpmp_unsupported_response [0, 9, 1, 2, 3, 4]).length =
      ([0, 9, 1, 2, 3, 4] : List Nat).length ∧
    (∀ i, i ≠ 1 → i ≠ 2 → i ≠ 3 →
      (natpmp_unsupported_response [0, 9, 1, 2, 3, 4])[i]? =
        ([0, 9, 1, 2, 3, 4] : List Nat)[i]?) ∧
    (natpmp_unsupported_response [0, 9, 1, 2, 3, 4])[1]? =
      some ((([0, 9, 1, 2, 3, 4] : List Nat).getD 1 0) ||| 0x80) ∧
    (4 ≤ ([0, 9, 1, 2, 3, 4] : List Nat).length →
      (natpmp_unsupported_response [0, 9, 1, 2, 3, 4])[2]? =
        some (resultBytes NATPMP_UNSUPP_OPCODE).1 ∧
      (natpmp_unsupported_response [0, 9, 1, 2, 3, 4])[3]? =
        some (resultBytes NATPMP_UNSUPP_OPCODE).2) :=
  unsupported_echo_spec [0, 9, 1, 2, 3, 4] (by decide)

/-- A fire with no pending timer means the timer really was unarmed. -/
theorem announce_fire_eq_none (st : AnnounceState)
    (h : announce_fire st = none) : st.armed = none := by
  cases hst : st.armed with
  | none => rfl
  | some d => simp [announce_fire, hst] at h

/-- With no pending timer the scheduler stays silent for any fuel. -/
theorem announce_run_stopped : ∀ (fuel : Nat) (st : AnnounceState),
    st.armed = none → announce_run fuel st = ([], st)
  | 0, _, _ => rfl
  | fuel + 1, st, h => by simp [announce_run, announce_fire, h]

/-- Fuel for the scheduler composes: running `a + b` steps is running `a`
steps and then `b` more from where it stopped. -/
theorem announce_run_add : ∀ (a b : Nat) (st : AnnounceState),
    announce_run (a + b) st =
      ((announce_run a st).1 ++
        (announce_run b (announce_run a st).2).1,
       (announce_run b (announce_run a st).2).2)
  | 0, b, st => by simp [announce_run]
  | a + 1, b, st => by
      rw [Nat.succ_add]
      cases hf : announce_fire st with
      | none =>
          have hst := announce_fire_eq_none st hf
          simp [announce_run, hf, announce_run_stopped b st hst]
      | some p =>
          obtain ⟨d, st'⟩ := p
          simp only [announce_run, hf]
          rw [announce_run_add a b st']
          simp

/-- C9: from a trigger, however much further the event loop runs, exactly
the `NATPMPD_MAX_DELAY = 10` announcements of the backoff table are sent,
the k-th armed with the k-th `timeouts` entry, and afterwards no
announcement timer is pending until the next trigger. -/
theorem announce_burst_spec (k : Nat) :
    (announce_run (NATPMPD_MAX_DELAY + k) announce_trigger).1 =
      timeouts ∧
    timeouts.length = NATPMPD_MAX_DELAY ∧
    (announce_run (NATPMPD_MAX_DELAY + k) announce_trigger).2.armed =
      none := by
  have h10 : announce_run NATPMPD_MAX_DELAY announce_trigger =
      (timeouts, { delay := 10, armed := none }) := by decide
  rw [announce_run_add NATPMPD_MAX_DELAY k announce_trigger, h10]
  refine ⟨?_, by decide, ?_⟩ <;>
    simp [announce_run_stopped k { delay := 10, armed := none } rfl]

/-- C10: a well-formed 12-byte mapping request arriving while the external
address is still unspecified (v4-mapped any, i.e. 0) is not rejected: the
handler still runs `natpmp_mapping` (create, refresh or remove) on the
store, the response is still sent with the computed ports and lifetime, and
its result field carries the network-failure code instead of success; a
mapping created in this situation has external address 0. -/
theorem handler_no_external_address_spec (clientAddr s u : Nat)
    (req : NatpmpRequest) (store : List Mapping)
    (hop : req.opcode = NATPMP_OPCODE_MAP_UDP ∨
      req.opcode = NATPMP_OPCODE_MAP_TCP) :
    natpmp_handler_mapping 0 clientAddr s 12 req u store =
      some ({ version := 0, opcode := req.opcode ||| 0x80,
              result := NATPMP_NETWORK_FAILURE, sssoe := s,
              port0 := (natpmp_mapping
                (if req.opcode = NATPMP_OPCODE_MAP_UDP then IPPROTO_UDP
                 else IPPROTO_TCP) ⟨clientAddr, req.port0⟩
                ⟨0, req.port1⟩ req.lifetime u store).response.port0,
              port1 := (natpmp_mapping
                (if req.opcode = NATPMP_OPCODE_MAP_UDP then IPPROTO_UDP
                 else IPPROTO_TCP) ⟨clientAddr, req.port0⟩
                ⟨0, req.port1⟩ req.lifetime u store).response.port1,
              lifetime := (natpmp_mapping
                (if req.opcode = NATPMP_OPCODE_MAP_UDP then IPPROTO_UDP
                 else IPPROTO_TCP) ⟨clientAddr, req.port0⟩
                ⟨0, req.port1⟩ req.lifetime u store).response.lifetime },
            (natpmp_mapping
              (if req.opcode = NATPMP_OPCODE_MAP_UDP then IPPROTO_UDP
               else IPPROTO_TCP) ⟨clientAddr, req.port0⟩
              ⟨0, req.port1⟩ req.lifetime u store).store,
            (natpmp_mapping
              (if req.opcode = NATPMP_OPCODE_MAP_UDP then IPPROTO_UDP
               else IPPROTO_TCP) ⟨clientAddr, req.port0⟩
              ⟨0, req.port1⟩ req.lifetime u store).rebuild) ∧
    NATPMP_NETWORK_FAILURE ≠ NATPMP_SUCCESS ∧
    (req.port0 > 0 → req.lifetime > 0 →
      store.find? (exactMatch
        (if req.opcode = NATPMP_OPCODE_MAP_UDP then IPPROTO_UDP
         else IPPROTO_TCP) ⟨clientAddr, req.port0⟩) = none →
      ∃ p, (natpmp_mapping
          (if req.opcode = NATPMP_OPCODE_MAP_UDP then IPPROTO_UDP
           else IPPROTO_TCP) ⟨clientAddr, req.port0⟩
          ⟨0, req.port1⟩ req.lifetime u store).store =
        { proto := (if req.opcode = NATPMP_OPCODE_MAP_UDP then IPPROTO_UDP
                    else IPPROTO_TCP),
          dst := ⟨0, p⟩, rdr := ⟨clientAddr, req.port0⟩,
          ev := some req.lifetime } :: store) := by
  refine ⟨?_, by decide, ?_⟩
  · unfold natpmp_handler_mapping
    rw [if_pos hop]
    simp
  · intro hp hl hex
    simp only [natpmp_mapping, gt_iff_lt]
    rw [if_pos hp, if_pos hl]
    rw [natpmp_create_mapping_of_fresh _ _ _ _ _ _ hex]
    cases hr : (scanMappings
        (if req.opcode = NATPMP_OPCODE_MAP_UDP then IPPROTO_UDP
         else IPPROTO_TCP) ⟨clientAddr, req.port0⟩ store none).1 with
    | some rm => exact ⟨rm.dst.port, rfl⟩
    | none => exact ⟨freshExternalPort u, rfl⟩

/-- Witness for C10: a UDP create request from client 10 with no external
address known; the mapping is created with external address 0 and the
response carries the network-failure result. -/
theorem handler_no_external_address_spec_witness :
    natpmp_handler_mapping 0 10 7 12 ⟨0, 1, 45000, 0, 3600⟩ 5 [] =
      some ({ version := 0, opcode := 1 ||| 0x80,
              result := NATPMP_NETWORK_FAILURE, sssoe := 7,
              port0 := (natpmp_mapping 17 ⟨10, 45000⟩ ⟨0, 0⟩ 3600 5
                []).response.port0,
              port1 := (natpmp_mapping 17 ⟨10, 45000⟩ ⟨0, 0⟩ 3600 5
                []).response.port1,
              lifetime := (natpmp_mapping 17 ⟨10, 45000⟩ ⟨0, 0⟩ 3600 5
                []).response.lifetime },
            (natpmp_mapping 17 ⟨10, 45000⟩ ⟨0, 0⟩ 3600 5 []).store,
            (natpmp_mapping 17 ⟨10, 45000⟩ ⟨0, 0⟩ 3600 5 []).rebuild) ∧
    (∃ p, (natpmp_mapping 17 ⟨10, 45000⟩ ⟨0, 0⟩ 3600 5 []).store =
      [{ proto := 17, dst := ⟨0, p⟩, rdr := ⟨10, 45000⟩,
         ev := some 3600 }]) := by
  have h := handler_no_external_address_spec 10 7 5 ⟨0, 1, 45000, 0, 3600⟩
    [] (Or.inl rfl)
  exact ⟨h.1, h.2.2 (by decide) (by decide) rfl⟩

end Natpmpd
